import Mathlib

set_option maxRecDepth 8192

/-!
Verification of the idempotent order pipeline of the website-assistant
repository: a shallow embedding of the Payment Gateway
(`backend/pipeline/agents/agent2_payment_gateway.py`), the Delivery Agent
(`backend/pipeline/agents/agent3_delivery_agent.py`) and the circuit
breaker of the event bus (`backend/pipeline/event_bus_adapter.py`),
together with proofs of the specified correctness properties.

Conventions of the embedding:
* timestamps (`datetime.utcnow()`) are epoch seconds, threaded through as
  explicit `Int` arguments named `now`;
* `uuid.uuid4()` draws are modelled by an explicit monotone counter
  (`nextUuid`) carried in the state, so freshness is by construction;
* Python dictionaries that serve as keyed stores are association lists
  with last-write-wins insertion;
* `async` methods are sequentialised: each Python coroutine becomes a pure
  state-transition function;
* the per-key `asyncio.Lock` objects of the idempotency adapter become a
  set of currently-held keys inside the store state.
-/

namespace WebsiteAssistant

/-! ## Association-list stores

Python dictionaries keyed by strings (`self._orders`, `self._records`,
`self._tokens`, ...) are embedded as association lists with
last-write-wins update. -/

def lookupA {A : Type} (m : List (String × A)) (k : String) : Option A :=
  (m.find? (fun p => p.1 == k)).map (fun p => p.2)

def insertA {A : Type} (m : List (String × A)) (k : String) (v : A) : List (String × A) :=
  match m with
  | [] => [(k, v)]
  | (k2, v2) :: rest => if k2 == k then (k, v) :: rest else (k2, v2) :: insertA rest k v

theorem lookupA_insert {A : Type} (m : List (String × A)) (k : String) (v : A) :
    lookupA (insertA m k v) k = some v := by
  induction m with
  | nil => simp [lookupA, insertA]
  | cons hd tl ih =>
    obtain ⟨k2, v2⟩ := hd
    by_cases h : k2 == k
    · simp [lookupA, insertA, h]
    · simp only [insertA, h, if_false]
      simpa [lookupA, List.find?, h] using ih

theorem lookupA_insert_ne {A : Type} (m : List (String × A)) (k k2 : String) (v : A)
    (h : k2 ≠ k) : lookupA (insertA m k v) k2 = lookupA m k2 := by
  have hne : (k == k2) = false := by simp [Ne.symm h]
  induction m with
  | nil => simp [lookupA, insertA, List.find?, hne]
  | cons hd tl ih =>
    obtain ⟨k3, v3⟩ := hd
    by_cases h3 : k3 = k
    · subst h3
      have h3t : (k3 == k3) = true := by simp
      simp [lookupA, insertA, List.find?, h3t, hne]
    · have h3f : (k3 == k) = false := by simp [h3]
      simp only [insertA, h3f, Bool.false_eq_true, if_false]
      by_cases h4 : k3 = k2
      · subst h4
        simp [lookupA, List.find?]
      · have h4f : (k3 == k2) = false := by simp [h4]
        simp only [lookupA, List.find?, h4f] at ih ⊢
        exact ih

/-! ## SHA-256 and HMAC-SHA-256

Executable embedding of the hash primitives the source calls through
`hashlib` / `hmac`: `ProductionOrder.generate_order_id` uses
`sha256("order:" + brief_id)` and the delivery agent stores
`hmac.new(secret, raw_token, sha256).hexdigest()`.  Bytes are `Nat`
values below 256; 32-bit words are `Nat` reduced mod `2 ^ 32`. -/

namespace SHA256

def M32 : Nat := 2 ^ 32

def rotr (n x : Nat) : Nat :=
  ((x >>> n) ||| (x <<< (32 - n))) % M32

def bsig0 (x : Nat) : Nat := (rotr 2 x) ^^^ (rotr 13 x) ^^^ (rotr 22 x)

def bsig1 (x : Nat) : Nat := (rotr 6 x) ^^^ (rotr 11 x) ^^^ (rotr 25 x)

def ssig0 (x : Nat) : Nat := (rotr 7 x) ^^^ (rotr 18 x) ^^^ (x >>> 3)

def ssig1 (x : Nat) : Nat := (rotr 17 x) ^^^ (rotr 19 x) ^^^ (x >>> 10)

def ch (x y z : Nat) : Nat := (x &&& y) ^^^ ((x ^^^ 4294967295) &&& z)

def maj (x y z : Nat) : Nat := (x &&& y) ^^^ (x &&& z) ^^^ (y &&& z)

/-- The 64 SHA-256 round constants of FIPS 180-4 (written in decimal). -/
def K : List Nat :=
  [1116352408, 1899447441, 3049323471, 3921009573,
   961987163, 1508970993, 2453635748, 2870763221,
   3624381080, 310598401, 607225278, 1426881987,
   1925078388, 2162078206, 2614888103, 3248222580,
   3835390401, 4022224774, 264347078, 604807628,
   770255983, 1249150122, 1555081692, 1996064986,
   2554220882, 2821834349, 2952996808, 3210313671,
   3336571891, 3584528711, 113926993, 338241895,
   666307205, 773529912, 1294757372, 1396182291,
   1695183700, 1986661051, 2177026350, 2456956037,
   2730485921, 2820302411, 3259730800, 3345764771,
   3516065817, 3600352804, 4094571909, 275423344,
   430227734, 506948616, 659060556, 883997877,
   958139571, 1322822218, 1537002063, 1747873779,
   1955562222, 2024104815, 2227730452, 2361852424,
   2428436474, 2756734187, 3204031479, 3329325298]

/-- Split a natural into `n` big-endian bytes. -/
def beBytes : Nat → Nat → List Nat
  | 0, _ => []
  | n + 1, v => beBytes n (v / 256) ++ [v % 256]

def padMessage (msg : List Nat) : List Nat :=
  let L := msg.length
  let z := (119 - (L % 64)) % 64
  msg ++ [128] ++ List.replicate z 0 ++ beBytes 8 (8 * L)

def chunksAux : Nat → List Nat → List (List Nat)
  | 0, _ => []
  | fuel + 1, l => if l.isEmpty then [] else l.take 64 :: chunksAux fuel (l.drop 64)

def chunks64 (l : List Nat) : List (List Nat) := chunksAux (l.length / 64 + 1) l

/-- Pack a big-endian byte quadruple into one 32-bit word; for bytes the
multiplications coincide with the usual shifts. -/
def be32 (u0 u1 u2 u3 : Nat) : Nat :=
  u0 * 16777216 + u1 * 65536 + u2 * 256 + u3

def toWords : List Nat → List Nat
  | u0 :: u1 :: u2 :: u3 :: rest => be32 u0 u1 u2 u3 :: toWords rest
  | _ => []

def extendSchedule : Nat → List Nat → List Nat
  | 0, ws => ws
  | n + 1, ws =>
      let i := ws.length
      let w := (ws.getD (i - 16) 0 + ssig0 (ws.getD (i - 15) 0) +
                ws.getD (i - 7) 0 + ssig1 (ws.getD (i - 2) 0)) % M32
      extendSchedule n (ws ++ [w])

def schedule (block : List Nat) : List Nat := extendSchedule 48 (toWords block)

structure Hash8 where
  a : Nat
  b : Nat
  c : Nat
  d : Nat
  e : Nat
  f : Nat
  g : Nat
  h : Nat
  deriving Repr, DecidableEq

def roundStep (st : Hash8) (kw : Nat × Nat) : Hash8 :=
  let t1 := (st.h + bsig1 st.e + ch st.e st.f st.g + kw.1 + kw.2) % M32
  let t2 := (bsig0 st.a + maj st.a st.b st.c) % M32
  { a := (t1 + t2) % M32, b := st.a, c := st.b, d := st.c,
    e := (st.d + t1) % M32, f := st.e, g := st.f, h := st.g }

def compress (st : Hash8) (block : List Nat) : Hash8 :=
  let ws := schedule block
  let fin := (K.zip ws).foldl roundStep st
  { a := (st.a + fin.a) % M32, b := (st.b + fin.b) % M32,
    c := (st.c + fin.c) % M32, d := (st.d + fin.d) % M32,
    e := (st.e + fin.e) % M32, f := (st.f + fin.f) % M32,
    g := (st.g + fin.g) % M32, h := (st.h + fin.h) % M32 }

/-- The SHA-256 initial hash value of FIPS 180-4 (written in decimal). -/
def initHash : Hash8 :=
  { a := 1779033703, b := 3144134277, c := 1013904242, d := 2773480762,
    e := 1359893119, f := 2600822924, g := 528734635, h := 1541459225 }

def wordBytes (w : Nat) : List Nat := beBytes 4 w

def sha256 (msg : List Nat) : List Nat :=
  let st := (chunks64 (padMessage msg)).foldl compress initHash
  wordBytes st.a ++ wordBytes st.b ++ wordBytes st.c ++ wordBytes st.d ++
  wordBytes st.e ++ wordBytes st.f ++ wordBytes st.g ++ wordBytes st.h

def hexDigit (n : Nat) : Char :=
  if n < 10 then Char.ofNat (48 + n) else Char.ofNat (87 + n)

def byteHex (b : Nat) : List Char := [hexDigit (b / 16), hexDigit (b % 16)]

def bytesToHex (bs : List Nat) : String := String.mk ((bs.map byteHex).flatten)

def sha256Hex (msg : List Nat) : String := bytesToHex (sha256 msg)

/-- Bytes of a string.  The sources call `str.encode()` (UTF-8); every string
the modelled code hashes is ASCII, where UTF-8 bytes coincide with the
code points used here. -/
def strBytes (s : String) : List Nat := s.data.map Char.toNat

def hmacSha256 (key msg : List Nat) : List Nat :=
  let k0 := if key.length > 64 then sha256 key else key
  let kPad := k0 ++ List.replicate (64 - k0.length) 0
  let ipad := kPad.map (fun b => b ^^^ 54)
  let opad := kPad.map (fun b => b ^^^ 92)
  sha256 (opad ++ sha256 (ipad ++ msg))

def hmacSha256Hex (key msg : String) : String :=
  bytesToHex (hmacSha256 (strBytes key) (strBytes msg))

end SHA256

/-- Validation of the SHA-256 embedding against the FIPS 180-4 test
vector for the message `"abc"` and the empty message. -/
theorem sha256_fips_vectors :
    SHA256.sha256Hex (SHA256.strBytes "abc") =
      "ba7816bf8f01cfea414140de5dae2223b00361a396177a9cb410ff61f20015ad" ∧
    SHA256.sha256Hex [] =
      "e3b0c44298fc1c149afbf4c8996fb92427ae41e4649b934ca495991b7852b855" := by
  decide

/-- Validation of the HMAC-SHA-256 embedding against the standard
published test vector. -/
theorem hmac_sha256_vector :
    SHA256.hmacSha256Hex "key" "The quick brown fox jumps over the lazy dog" =
      "f7bc83f430538424b13298e6aa6fb143ef4d59a14946175997479dbc2d1a3cd8" := by
  decide

/-! ## Payment Gateway (agent2_payment_gateway.py)

Embedding of the order data model, the idempotency store
(`RedisIdempotencyAdapter`), the webhook entry point
(`PaymentGateway.process_webhook`), the DLQ-aware processor
(`PaymentGateway._process_webhook_with_dlq`) and the locked checkout
handler (`PaymentGateway._process_checkout_locked`). -/

namespace Gateway

inductive PaymentTier
  | starter
  | professional
  | enterprise
  deriving DecidableEq, Repr

inductive OrderStatus
  | pending
  | awaiting_payment
  | payment_processing
  | payment_confirmed
  | payment_failed
  | queued
  | in_production
  | completed
  | delivered
  | cancelled
  | refunded
  deriving DecidableEq, Repr

inductive PaymentStatus
  | pending
  | processing
  | captured
  | failed
  | refunded
  deriving DecidableEq, Repr

inductive WebhookStatus
  | pending
  | processing
  | completed
  | failed
  | dlq
  deriving DecidableEq, Repr

inductive AuditEventType
  | ORDER_CREATED
  | ORDER_UPDATED
  | PAYMENT_INITIATED
  | PAYMENT_CONFIRMED
  | PAYMENT_FAILED
  | PAYMENT_REFUNDED
  | WEBHOOK_RECEIVED
  | WEBHOOK_PROCESSED
  | WEBHOOK_FAILED
  | WEBHOOK_DLQ
  | SESSION_CREATED
  | SESSION_EXPIRED
  deriving DecidableEq, Repr

structure CreativeBrief where
  brief_id : String
  session_id : String
  business_name : String
  contact_email : String
  payment_tier : PaymentTier
  quoted_price : Int
  duration_seconds : Int
  /-- float in the source; carried opaquely (scaled), never read by the modelled code paths -/
  confidence_score : Int
  deriving DecidableEq, Repr

structure ProductionOrder where
  order_id : String
  brief_id : String
  correlation_id : String
  stripe_session_id : Option String
  stripe_payment_intent_id : Option String
  stripe_customer_id : Option String
  status : OrderStatus
  payment_status : PaymentStatus
  previous_status : Option OrderStatus
  payment_tier : PaymentTier
  quoted_price : Int
  amount_paid : Int
  currency : String
  delivery_email : String
  estimated_delivery : Option Int
  created_at : Int
  updated_at : Int
  paid_at : Option Int
  queued_at : Option Int
  metadata : List (String × String)
  version : Nat
  deriving DecidableEq, Repr

def ProductionOrder.is_paid (o : ProductionOrder) : Bool :=
  o.payment_status == PaymentStatus.captured

/-- Embeds `ProductionOrder.generate_order_id`:
`"ORD-" + sha256("order:" + brief_id).hexdigest()[:8].upper()`. -/
def generateOrderId (brief_id : String) : String :=
  "ORD-" ++ String.mk ((((SHA256.sha256Hex
    (SHA256.strBytes ("order:" ++ brief_id))).data).take 8).map Char.toUpper)

/-- Embeds `ProductionOrder.transition_to`: an immutable copy with
`previous_status`, `status`, `updated_at` and `version` replaced and every
other field untouched.  The source performs no validation of `new_status`. -/
def ProductionOrder.transition_to (o : ProductionOrder) (new_status : OrderStatus)
    (now : Int) : ProductionOrder :=
  { o with
    previous_status := some o.status
    status := new_status
    updated_at := now
    version := o.version + 1 }

/-- Statuses outside `{delivered, cancelled, refunded}`. -/
def isPreDelivery : OrderStatus → Bool
  | .delivered => false
  | .cancelled => false
  | .refunded => false
  | _ => true

/-- Modelled from the spec: the order state graph of section 4.3
(`pending → awaiting_payment → payment_processing →
{payment_confirmed | payment_failed} → queued → in_production →
completed → delivered`, with `cancelled` and `refunded` reachable from
any pre-delivery state).  The source defines only the `OrderStatus`
enum; no transition-validation code exists, so the graph itself is
taken from the spec's words in order to state what "moving backward"
means. -/
def specForwardEdge (a b : OrderStatus) : Bool :=
  match a, b with
  | .pending, .awaiting_payment => true
  | .awaiting_payment, .payment_processing => true
  | .payment_processing, .payment_confirmed => true
  | .payment_processing, .payment_failed => true
  | .payment_confirmed, .queued => true
  | .queued, .in_production => true
  | .in_production, .completed => true
  | .completed, .delivered => true
  | _, _ =>
      isPreDelivery a &&
        (decide (b = OrderStatus.cancelled) || decide (b = OrderStatus.refunded))

def allStatuses : List OrderStatus :=
  [.pending, .awaiting_payment, .payment_processing, .payment_confirmed, .payment_failed,
   .queued, .in_production, .completed, .delivered, .cancelled, .refunded]

/-- Reachability in the spec graph, by fuelled search (11 statuses, so fuel
11 covers every path). -/
def reachForwardFuel : Nat → OrderStatus → OrderStatus → Bool
  | 0, a, b => decide (a = b)
  | n + 1, a, b =>
      decide (a = b) ||
        allStatuses.any (fun c => specForwardEdge a c && reachForwardFuel n c b)

def reachForward (a b : OrderStatus) : Bool := reachForwardFuel 11 a b

/-! ### RedisIdempotencyAdapter

The adapter keeps a dict of `IdempotencyRecord`s plus one `asyncio.Lock`
per key.  Only the strings `"processing"` and `"completed"` are ever
written into `record.status`.  The set of keys whose per-key lock is
currently held is modelled by the `locked` list. -/

inductive IdemStatus
  | processing
  | completed
  deriving DecidableEq, Repr

def idempotencyTtlSeconds : Int := 86400 * 7

structure IdempotencyRecord where
  key : String
  status : IdemStatus
  result : Option String
  created_at : Int
  /-- carried as in the source, but never consulted by any modelled path -/
  expires_at : Int
  lock_holder : Option Nat
  deriving DecidableEq, Repr

structure IdemState where
  records : List (String × IdempotencyRecord)
  /-- keys whose per-key `asyncio.Lock` is currently held -/
  locked : List String
  deriving DecidableEq, Repr

def lockHeld (st : IdemState) (k : String) : Bool := st.locked.contains k

/-- Does an existing record block a new acquisition?  Mirrors the two
`return False` checks after the lock is grabbed in
`RedisIdempotencyAdapter.try_acquire`: a `completed` record always
blocks, and a `processing` record blocks unless its `lock_holder` equals
the caller's `holder_id` (in particular a record whose holder was cleared
to `None` by `release` blocks every new holder). -/
def blocksAcquire (r : IdempotencyRecord) (holder : Nat) : Bool :=
  decide (r.status = IdemStatus.completed) ||
    (decide (r.status = IdemStatus.processing) && decide (r.lock_holder ≠ some holder))

def freshRecord (key : String) (holder : Nat) (now : Int) : IdempotencyRecord :=
  { key := key, status := .processing, result := none,
    created_at := now, expires_at := now + idempotencyTtlSeconds,
    lock_holder := some holder }

/-- Embeds `RedisIdempotencyAdapter.try_acquire`.  A held lock means
another attempt is in flight (`return False`); otherwise the lock is
taken, the existing record is checked (releasing again on a block) and a
fresh `processing` record is written on success. -/
def tryAcquire (st : IdemState) (key : String) (holder : Nat) (now : Int) :
    Bool × IdemState :=
  if lockHeld st key then (false, st)
  else
    match lookupA st.records key with
    | some r =>
        if blocksAcquire r holder then (false, st)
        else (true, { records := insertA st.records key (freshRecord key holder now),
                      locked := key :: st.locked })
    | none =>
        (true, { records := insertA st.records key (freshRecord key holder now),
                 locked := key :: st.locked })

/-- Embeds `RedisIdempotencyAdapter.release`: only the current holder may
release; the record is kept with `lock_holder` cleared to `None` and the
per-key lock freed. -/
def releaseLock (st : IdemState) (key : String) (holder : Nat) : Bool × IdemState :=
  match lookupA st.records key with
  | some r =>
      if r.lock_holder = some holder then
        (true, { records := insertA st.records key { r with lock_holder := none },
                 locked := st.locked.filter (fun k => k != key) })
      else (false, st)
  | none => (false, st)

/-- Embeds `RedisIdempotencyAdapter.mark_completed`: flips the record to
`completed`, stores the result and frees the per-key lock. -/
def markCompleted (st : IdemState) (key : String) (result : String) : Bool × IdemState :=
  match lookupA st.records key with
  | some r =>
      (true, { records := insertA st.records key
                 { r with status := .completed, result := some result },
               locked := st.locked.filter (fun k => k != key) })
  | none => (false, st)

/-- Embeds `RedisIdempotencyAdapter.is_completed`. -/
def isCompleted (st : IdemState) (key : String) : Bool :=
  match lookupA st.records key with
  | some r => decide (r.status = IdemStatus.completed)
  | none => false

/-! ### Webhook events, audit log and gateway state -/

structure WebhookEvent where
  event_id : Nat
  event_type : String
  stripe_event_id : String
  /-- the raw Stripe payload dict, carried opaquely -/
  payload : String
  status : WebhookStatus
  attempt_count : Nat
  max_attempts : Nat
  last_error : Option String
  created_at : Int
  processed_at : Option Int
  next_retry_at : Option Int
  deriving DecidableEq, Repr

/-- Embeds the `WebhookEvent.is_retriable` computed field. -/
def WebhookEvent.is_retriable (e : WebhookEvent) : Bool :=
  decide (e.attempt_count < e.max_attempts) && decide (e.status ≠ WebhookStatus.dlq)

def dlqMaxRetries : Nat := 3

def dlqRetryDelaySeconds : Int := 60

inductive AuditPayload
  | payloadNone
  | orderSnapshot (o : ProductionOrder)
  | statusText (s : String)
  deriving DecidableEq, Repr

structure AuditLogEntry where
  log_id : Nat
  correlation_id : String
  event_type : AuditEventType
  entity_type : String
  entity_id : String
  previous_state : AuditPayload
  new_state : AuditPayload
  metadata : List (String × String)
  timestamp : Int
  actor : String
  deriving DecidableEq, Repr

/-- Whole-gateway state: the injected stores plus the uuid supply.
`tasks` records the background coroutines spawned by
`asyncio.create_task` in `process_webhook`, pairing each tracked
`WebhookEvent` with its correlation id. -/
structure GatewayState where
  idem : IdemState
  orders : List (String × ProductionOrder)
  briefs : List (String × CreativeBrief)
  audit : List AuditLogEntry
  dlq : List WebhookEvent
  tasks : List (WebhookEvent × String)
  nextUuid : Nat
  deriving DecidableEq, Repr

/-- Embeds `PaymentGateway._emit_audit` / `InMemoryAuditLog.append`
(append-only). -/
def emitAudit (s : GatewayState) (event_type : AuditEventType)
    (entity_type entity_id correlation_id : String)
    (prev new : AuditPayload) (metadata : List (String × String)) (now : Int) :
    GatewayState :=
  let entry : AuditLogEntry :=
    { log_id := s.nextUuid, correlation_id := correlation_id, event_type := event_type,
      entity_type := entity_type, entity_id := entity_id,
      previous_state := prev, new_state := new, metadata := metadata,
      timestamp := now, actor := "system" }
  { s with audit := s.audit ++ [entry], nextUuid := s.nextUuid + 1 }

/-! ### The locked checkout handler -/

/-- The `data.object` session dict of a `checkout.session.completed`
event, restricted to the keys the handler reads. -/
structure StripeSession where
  id : String
  payment_intent : Option String
  customer : Option String
  amount_total : Int
  metadata_brief_id : Option String
  deriving DecidableEq, Repr

/-- Result of `_process_checkout_locked`; `briefNotFound` models the
raised `ValueError(f"Brief not found: ...")`. -/
inductive CheckoutOutcome
  | success (order_id : String)
  | alreadyProcessed
  | processingElsewhere
  | briefNotFound (brief_id : String)
  deriving DecidableEq, Repr

def sessionKey (session_id : String) : String := "stripe:session:" ++ session_id

/-- Embeds `PaymentGateway._calculate_delivery_date` (days by tier:
starter 5, professional 3, enterprise 2). -/
def calculateDeliveryDate (tier : PaymentTier) (now : Int) : Int :=
  let days : Int :=
    match tier with
    | .starter => 5
    | .professional => 3
    | .enterprise => 2
  now + days * 86400

/-- The `ProductionOrder(...)` construction inside
`_process_checkout_locked`.  `amount_paid` is `session.amount_total // 100`
(Python floor division, hence `Int.fdiv`). -/
def buildOrder (brief : CreativeBrief) (session : StripeSession)
    (session_id brief_id correlation_id : String) (now : Int) : ProductionOrder :=
  { order_id := generateOrderId brief_id
    brief_id := brief_id
    correlation_id := correlation_id
    stripe_session_id := some session_id
    stripe_payment_intent_id := session.payment_intent
    stripe_customer_id := session.customer
    status := .payment_confirmed
    payment_status := .captured
    previous_status := none
    payment_tier := brief.payment_tier
    quoted_price := brief.quoted_price
    amount_paid := Int.fdiv session.amount_total 100
    currency := "usd"
    delivery_email := brief.contact_email
    estimated_delivery := some (calculateDeliveryDate brief.payment_tier now)
    created_at := now
    updated_at := now
    paid_at := some now
    queued_at := none
    metadata := []
    version := 1 }

/-- Embeds `PaymentGateway._process_checkout_locked` (runs with the
per-session `asyncio.Lock` of `_on_checkout_completed` held).  Steps:
draw a fresh `holder_id`, `try_acquire` the idempotency key; on refusal
answer `already_processed` / `processing_elsewhere`; otherwise load the
cached brief (missing → release and raise), validate the amount (warning
only, no state effect), save the order, audit `PAYMENT_CONFIRMED`,
transition to `QUEUED`, stamp `queued_at`, save again, audit
`ORDER_CREATED`, and mark the idempotency key completed. -/
def processCheckoutLocked (s : GatewayState) (session : StripeSession)
    (session_id brief_id correlation_id : String) (now : Int) :
    CheckoutOutcome × GatewayState :=
  let key := sessionKey session_id
  let holder := s.nextUuid
  let s1 : GatewayState := { s with nextUuid := s.nextUuid + 1 }
  let acq := tryAcquire s1.idem key holder now
  let s2 : GatewayState := { s1 with idem := acq.2 }
  if acq.1 = false then
    if isCompleted s2.idem key then (CheckoutOutcome.alreadyProcessed, s2)
    else (CheckoutOutcome.processingElsewhere, s2)
  else
    match lookupA s2.briefs brief_id with
    | none =>
        let rel := releaseLock s2.idem key holder
        (CheckoutOutcome.briefNotFound brief_id, { s2 with idem := rel.2 })
    | some brief =>
        let order := buildOrder brief session session_id brief_id correlation_id now
        let s3 : GatewayState := { s2 with orders := insertA s2.orders order.order_id order }
        let s4 := emitAudit s3 .PAYMENT_CONFIRMED "order" order.order_id correlation_id
          .payloadNone (.orderSnapshot order)
          [("payment_tier", "tier"), ("amount_paid", "amount")] now
        let order2 := { order.transition_to OrderStatus.queued now with queued_at := some now }
        let s5 : GatewayState := { s4 with orders := insertA s4.orders order2.order_id order2 }
        let s6 := emitAudit s5 .ORDER_CREATED "order" order2.order_id correlation_id
          (.statusText "payment_confirmed") (.statusText "queued") [] now
        let mc := markCompleted s6.idem key order2.order_id
        (CheckoutOutcome.success order2.order_id, { s6 with idem := mc.2 })

/-! ### Webhook entry point and DLQ processor -/

/-- Outcome of `stripe.Webhook.construct_event` (an external library
call): either a verified, parsed event or a
`SignatureVerificationError`. -/
inductive SignatureCheck
  | valid (event_type stripe_event_id correlation_id payload : String)
  | invalid
  deriving DecidableEq, Repr

/-- Response of `process_webhook`; `signatureError` models the raised
`ValueError("Invalid webhook signature")`. -/
inductive WebhookResponse
  | received (stripe_event_id : String)
  | signatureError
  deriving DecidableEq, Repr

/-- The `WebhookEvent(...)` tracking object created by `process_webhook`
(fresh `event_id` drawn from the uuid supply on every delivery). -/
def newTaskEvent (s : GatewayState) (etype sid payload : String) (now : Int) : WebhookEvent :=
  { event_id := s.nextUuid, event_type := etype, stripe_event_id := sid,
    payload := payload, status := .pending, attempt_count := 0,
    max_attempts := dlqMaxRetries, last_error := none,
    created_at := now, processed_at := none, next_retry_at := none }

/-- Embeds `PaymentGateway.process_webhook`.  The signature is verified
before anything else; on failure a typed error is raised with no state
change at all.  On success a fresh `WebhookEvent` is created, a
`WEBHOOK_RECEIVED` audit entry appended, and the DLQ-aware processing is
spawned as a background task. -/
def processWebhook (s : GatewayState) (check : SignatureCheck) (now : Int) :
    WebhookResponse × GatewayState :=
  match check with
  | .invalid => (.signatureError, s)
  | .valid etype sid corr payload =>
      let we := newTaskEvent s etype sid payload now
      let s1 : GatewayState := { s with nextUuid := s.nextUuid + 1 }
      let s2 := emitAudit s1 .WEBHOOK_RECEIVED "webhook" sid corr
        .payloadNone .payloadNone [("event_type", etype)] now
      (.received sid, { s2 with tasks := s2.tasks ++ [(we, corr)] })

/-- Outcome of one `router.route` call on the event's handler. -/
inductive HandlerResult
  | ok
  | errorExc (msg : String)
  deriving DecidableEq, Repr

/-- Embeds `PaymentGateway._process_webhook_with_dlq` for one processing
attempt: bump `attempt_count`, mark `processing`, run the handler; on
success mark `completed` and audit; on exception either schedule a retry
(`is_retriable`) or enqueue into the dead-letter store with status
`dlq` and audit `WEBHOOK_DLQ`. -/
def processWebhookWithDlq (s : GatewayState) (we : WebhookEvent)
    (handler : HandlerResult) (correlation_id : String) (now : Int) :
    WebhookEvent × GatewayState :=
  let we1 := { we with attempt_count := we.attempt_count + 1,
                       status := WebhookStatus.processing }
  match handler with
  | .ok =>
      let we2 := { we1 with status := .completed, processed_at := some now }
      let s1 := emitAudit s .WEBHOOK_PROCESSED "webhook" we.stripe_event_id correlation_id
        .payloadNone (.statusText "completed") [] now
      (we2, s1)
  | .errorExc msg =>
      let we2 := { we1 with last_error := some msg }
      if we2.is_retriable then
        let we3 := { we2 with
          status := WebhookStatus.failed
          next_retry_at := some (now + dlqRetryDelaySeconds * (we2.attempt_count : Int)) }
        (we3, s)
      else
        let we3 := { we2 with status := WebhookStatus.dlq }
        let s1 : GatewayState := { s with dlq := s.dlq ++ [we3] }
        let s2 := emitAudit s1 .WEBHOOK_DLQ "webhook" we.stripe_event_id correlation_id
          .payloadNone .payloadNone [("error", msg)] now
        (we3, s2)

/-- Repeated processing attempts with an always-failing handler (the
scenario of the dead-letter property): attempt `n + 1` runs after the
first `n`. -/
def attemptsFailing (s : GatewayState) (we : WebhookEvent) (msg corr : String)
    (now : Int) : Nat → WebhookEvent × GatewayState
  | 0 => (we, s)
  | n + 1 =>
      let p := attemptsFailing s we msg corr now n
      processWebhookWithDlq p.2 p.1 (.errorExc msg) corr now

end Gateway

/-! ## Circuit Breaker (event_bus_adapter.py)

Embedding of the `CircuitBreaker` class wrapping the event-bus transport
boundary.  `can_execute`, `record_success` and `record_failure` become
pure functions; `datetime.utcnow()` is the explicit `now`. -/

namespace Breaker

inductive CircuitState
  | closed
  | opened
  | half_open
  deriving DecidableEq, Repr

def cbFailureThreshold : Nat := 5

def cbResetTimeoutSeconds : Int := 30

structure CircuitBreaker where
  name : String
  failure_threshold : Nat
  reset_timeout : Int
  state : CircuitState
  failures : Nat
  last_failure_time : Option Int
  deriving DecidableEq, Repr

/-- The `CircuitBreaker.__init__` state: `closed` with zero failures. -/
def mkCircuitBreaker (name : String) (thr : Nat) (timeout : Int) : CircuitBreaker :=
  { name := name, failure_threshold := thr, reset_timeout := timeout,
    state := .closed, failures := 0, last_failure_time := none }

/-- Embeds `CircuitBreaker.can_execute`: `closed` passes; `opened` passes
only once the reset timeout has elapsed since the last failure, flipping
to `half_open`; `half_open` allows the trial call. -/
def canExecute (cb : CircuitBreaker) (now : Int) : Bool × CircuitBreaker :=
  match cb.state with
  | .closed => (true, cb)
  | .opened =>
      match cb.last_failure_time with
      | some t =>
          if now - t ≥ cb.reset_timeout then (true, { cb with state := .half_open })
          else (false, cb)
      | none => (false, cb)
  | .half_open => (true, cb)

/-- Embeds `CircuitBreaker.record_success`: in `half_open` close the
circuit and reset the failure count; in `closed` just reset the count. -/
def recordSuccess (cb : CircuitBreaker) : CircuitBreaker :=
  match cb.state with
  | .half_open => { cb with state := .closed, failures := 0 }
  | .closed => { cb with failures := 0 }
  | .opened => cb

/-- Embeds `CircuitBreaker.record_failure`: bump the count and stamp the
time; a failure in `half_open` reopens, and reaching the threshold
opens. -/
def recordFailure (cb : CircuitBreaker) (now : Int) : CircuitBreaker :=
  let cb1 := { cb with failures := cb.failures + 1, last_failure_time := some now }
  if cb.state = CircuitState.half_open then { cb1 with state := .opened }
  else if cb1.failures ≥ cb.failure_threshold then { cb1 with state := .opened }
  else cb1

/-- `n` consecutive recorded failures. -/
def failuresIter (now : Int) : Nat → CircuitBreaker → CircuitBreaker
  | 0, cb => cb
  | n + 1, cb => recordFailure (failuresIter now n cb) now

end Breaker

/-! ## Delivery Agent (agent3_delivery_agent.py)

Embedding of the secure token-exchange path: token creation on
`on_production_completed`, HMAC-keyed lookup, and
`exchange_token_for_download` with its audit trail. -/

namespace Delivery

inductive TokenStatus
  | active
  | used
  | expired
  | revoked
  | exhausted
  deriving DecidableEq, Repr

inductive NotificationType
  | payment_confirmed
  | production_started
  | milestone_update
  | delivery_final
  | payment_failed
  | cart_recovery
  | cart_final_reminder
  | delivery_reminder
  | download_expiring
  deriving DecidableEq, Repr

inductive DeliveryStatus
  | pending
  | sent
  | delivered
  | opened
  | clicked
  | bounced
  | dropped
  | failed
  | expired
  deriving DecidableEq, Repr

def maxDownloadsPerToken : Nat := 10

def enterpriseMaxDownloads : Nat := 50

def portalTokenExpiryHours : Int := 168

def downloadLinkExpiryMinutes : Int := 15

def tokenSecret : String := "your-256-bit-secret-key-here"

structure DeliveryToken where
  token_id : Nat
  /-- only the keyed hash of the raw token; the raw token has no field here -/
  token_hash : String
  order_id : String
  correlation_id : String
  status : TokenStatus
  payment_tier : Gateway.PaymentTier
  max_downloads : Nat
  download_count : Nat
  allowed_ip_cidrs : List String
  created_at : Int
  expires_at : Int
  last_used_at : Option Int
  video_key : String
  formats_available : List String
  deriving DecidableEq, Repr

/-- Embeds the `DeliveryToken.is_valid` computed field: `active`, not past
`expires_at`, and strictly under the download cap. -/
def DeliveryToken.is_valid (t : DeliveryToken) (now : Int) : Bool :=
  if t.status ≠ TokenStatus.active then false
  else if now > t.expires_at then false
  else if t.download_count ≥ t.max_downloads then false
  else true

/-- Embeds `DeliveryToken.remaining_downloads` (`max(0, max - count)`,
which is `Nat` truncated subtraction). -/
def DeliveryToken.remaining_downloads (t : DeliveryToken) : Nat :=
  t.max_downloads - t.download_count

/-- Embeds `DeliveryToken.record_download`: immutable copy with the count
bumped, `last_used_at` stamped, and the status flipped to `exhausted`
once the new count reaches the cap. -/
def DeliveryToken.record_download (t : DeliveryToken) (now : Int) : DeliveryToken :=
  let new_count := t.download_count + 1
  let new_status := if new_count ≥ t.max_downloads then TokenStatus.exhausted else t.status
  { t with download_count := new_count, last_used_at := some now, status := new_status }

structure DownloadAttempt where
  attempt_id : Nat
  /-- `none` models the source's literal string `"unknown"` used when no token matched -/
  token_id : Option Nat
  order_id : String
  correlation_id : String
  ip_address : String
  user_agent : String
  referer : Option String
  success : Bool
  failure_reason : Option String
  presigned_url_generated : Bool
  timestamp : Int
  deriving DecidableEq, Repr

structure NotificationRecord where
  notification_id : Nat
  order_id : String
  correlation_id : String
  notification_type : NotificationType
  recipient_email : String
  payment_tier : Gateway.PaymentTier
  sendgrid_message_id : Option String
  template_id : String
  status : DeliveryStatus
  sent_at : Option Int
  delivered_at : Option Int
  opened_at : Option Int
  clicked_at : Option Int
  bounced_at : Option Int
  attempt_count : Nat
  last_error : Option String
  deriving DecidableEq, Repr

/-- The agent-3 `ProductionOrder` input model (distinct from agent 2's). -/
structure ProductionOrder where
  order_id : String
  brief_id : String
  correlation_id : String
  delivery_email : String
  payment_tier : Gateway.PaymentTier
  amount_paid : Int
  estimated_delivery : Option Int
  business_name : String
  metadata : List (String × String)
  deriving DecidableEq, Repr

/-- Delivery-agent state: `tokens` is `InMemoryTokenRepository._tokens`
(keyed by token hash; the auxiliary `_by_order` index is unused by the
verified paths and omitted), `audit` the append-only
`InMemoryDownloadAuditLog`, `notifications` the notification store. -/
structure DeliveryState where
  tokens : List (String × DeliveryToken)
  audit : List DownloadAttempt
  notifications : List NotificationRecord
  nextUuid : Nat
  deriving DecidableEq, Repr

/-- Embeds `DeliveryAgent._hash_token` (and the hash half of
`_generate_token`): HMAC-SHA-256 of the raw token keyed by the
server-side secret, hex encoded. -/
def hashToken (raw_token : String) : String :=
  SHA256.hmacSha256Hex tokenSecret raw_token

/-- Embeds `TemplateManager.get_template_id`: enterprise and professional
override tables first, then the base table. -/
def getTemplateId (nt : NotificationType) (tier : Gateway.PaymentTier) : String :=
  match tier, nt with
  | .enterprise, .payment_confirmed => "d-payment-confirmed-enterprise"
  | .enterprise, .production_started => "d-production-started-enterprise"
  | .enterprise, .milestone_update => "d-milestone-enterprise"
  | .enterprise, .delivery_final => "d-delivery-final-enterprise"
  | .professional, .delivery_final => "d-delivery-final-professional"
  | _, .payment_confirmed => "d-payment-confirmed-base"
  | _, .production_started => "d-production-started-base"
  | _, .milestone_update => "d-milestone-update-base"
  | _, .delivery_final => "d-delivery-final-base"
  | _, .payment_failed => "d-payment-failed-base"
  | _, .cart_recovery => "d-cart-recovery-base"
  | _, .delivery_reminder => "d-delivery-reminder-base"
  | _, .download_expiring => "d-download-expiring-base"
  | _, .cart_final_reminder => "d-generic-notification"

/-- Embeds `DeliveryAgent.on_production_completed`.  The raw token
(`secrets.token_urlsafe(32)` in the source) is an explicit argument — the
randomness supply — and only its keyed hash enters the token record.  The
portal URL `PORTAL_URL + "/download?token=" + raw_token` goes into the
email body only; `NotificationRecord` has no body field, so the raw token
reaches no store.  Enterprise tier doubles the expiry and raises the
download cap. -/
def onProductionCompleted (s : DeliveryState) (order : ProductionOrder)
    (video_key : String) (formats : Option (List String)) (raw_token : String)
    (now : Int) : (DeliveryToken × NotificationRecord) × DeliveryState :=
  let token_hash := hashToken raw_token
  let max_downloads :=
    if order.payment_tier = Gateway.PaymentTier.enterprise then enterpriseMaxDownloads
    else maxDownloadsPerToken
  let expiry_hours : Int :=
    if order.payment_tier = Gateway.PaymentTier.enterprise then portalTokenExpiryHours * 2
    else portalTokenExpiryHours
  let token : DeliveryToken :=
    { token_id := s.nextUuid
      token_hash := token_hash
      order_id := order.order_id
      correlation_id := order.correlation_id
      status := .active
      payment_tier := order.payment_tier
      max_downloads := max_downloads
      download_count := 0
      allowed_ip_cidrs := []
      created_at := now
      expires_at := now + expiry_hours * 3600
      last_used_at := none
      video_key := video_key
      formats_available := formats.getD ["mp4_1080p"] }
  let s1 : DeliveryState :=
    { s with nextUuid := s.nextUuid + 1, tokens := insertA s.tokens token_hash token }
  let notification : NotificationRecord :=
    { notification_id := s1.nextUuid
      order_id := order.order_id
      correlation_id := order.correlation_id
      notification_type := .delivery_final
      recipient_email := order.delivery_email
      payment_tier := order.payment_tier
      sendgrid_message_id := some ("sg-" ++ toString (s1.nextUuid + 1))
      template_id := getTemplateId .delivery_final order.payment_tier
      status := .sent
      sent_at := some now
      delivered_at := none
      opened_at := none
      clicked_at := none
      bounced_at := none
      attempt_count := 1
      last_error := none }
  let s2 : DeliveryState :=
    { s1 with nextUuid := s1.nextUuid + 2,
              notifications := s1.notifications ++ [notification] }
  ((token, notification), s2)

/-- Result of `exchange_token_for_download` (the returned dict). -/
inductive ExchangeResult
  | ok (download_url : String) (expires_in_seconds : Int)
       (remaining_downloads : Nat) (filename : String)
  | err (msg : String)
  deriving DecidableEq, Repr

/-- Embeds the external URL generator at the asset-store boundary via the
source's own no-crypto fallback format in
`CloudFrontUrlGenerator.generate_download_url`:
`https://{domain}/{key}?Expires={expiry}&mock=true`. -/
def generateDownloadUrl (key : String) (expires_in_seconds now : Int) : String :=
  "https://d123456789.cloudfront.net/" ++ key ++ "?Expires=" ++
    toString (now + expires_in_seconds) ++ "&mock=true"

/-- Embeds `DeliveryAgent.exchange_token_for_download`: hash the presented
raw token, look the record up by hash, audit-log every attempt
(success or failure, with reason), and on a valid token mint the
short-lived URL, record the download and report the remaining quota.
The failure classification mirrors the source exactly:
expiry first (`"token_expired"` / reason `"expired"`), then revocation,
then the exhausted cap (`"downloads_exhausted"` / reason
`"max_downloads_reached"`). -/
def exchangeTokenForDownload (s : DeliveryState) (raw_token ip_address user_agent : String)
    (referer : Option String) (now : Int) : ExchangeResult × DeliveryState :=
  let token_hash := hashToken raw_token
  match lookupA s.tokens token_hash with
  | none =>
      let corr := "uuid-" ++ toString s.nextUuid
      let attempt : DownloadAttempt :=
        { attempt_id := s.nextUuid + 1, token_id := none, order_id := "unknown",
          correlation_id := corr, ip_address := ip_address, user_agent := user_agent,
          referer := referer, success := false,
          failure_reason := some "token_not_found",
          presigned_url_generated := false, timestamp := now }
      (ExchangeResult.err "Invalid or expired token",
       { s with nextUuid := s.nextUuid + 2, audit := s.audit ++ [attempt] })
  | some token =>
      let attempt0 : DownloadAttempt :=
        { attempt_id := s.nextUuid, token_id := some token.token_id,
          order_id := token.order_id, correlation_id := token.correlation_id,
          ip_address := ip_address, user_agent := user_agent, referer := referer,
          success := false, failure_reason := none,
          presigned_url_generated := false, timestamp := now }
      let s0 : DeliveryState := { s with nextUuid := s.nextUuid + 1 }
      if token.is_valid now = false then
        let fr : String × String :=
          if token.status = TokenStatus.expired ∨ now > token.expires_at then
            ("token_expired", "expired")
          else if token.status = TokenStatus.revoked then ("token_revoked", "revoked")
          else if token.download_count ≥ token.max_downloads then
            ("downloads_exhausted", "max_downloads_reached")
          else ("token_invalid", "invalid")
        let attempt1 := { attempt0 with failure_reason := some fr.1 }
        (ExchangeResult.err ("Token " ++ fr.2), { s0 with audit := s0.audit ++ [attempt1] })
      else
        let expires_in := downloadLinkExpiryMinutes * 60
        let filename := token.order_id ++ ".mp4"
        let url := generateDownloadUrl token.video_key expires_in now
        let updated := token.record_download now
        let s1 : DeliveryState := { s0 with tokens := insertA s0.tokens token_hash updated }
        let attempt1 := { attempt0 with success := true, presigned_url_generated := true }
        (ExchangeResult.ok url expires_in updated.remaining_downloads filename,
         { s1 with audit := s1.audit ++ [attempt1] })

/-- State after `n` exchange attempts with the same raw token. -/
def exchangeIter (raw_token ip_address user_agent : String) (now : Int) :
    Nat → DeliveryState → DeliveryState
  | 0, s => s
  | n + 1, s =>
      (exchangeTokenForDownload (exchangeIter raw_token ip_address user_agent now n s)
        raw_token ip_address user_agent none now).2

/-- A placeholder row used only to project the last element of an audit
log in theorem statements. -/
def dummyAttempt : DownloadAttempt :=
  { attempt_id := 0, token_id := none, order_id := "", correlation_id := "",
    ip_address := "", user_agent := "", referer := none, success := false,
    failure_reason := none, presigned_url_generated := false, timestamp := 0 }

end Delivery

/-! ## Theorems -/

open Gateway Delivery Breaker

/-- C10: `transition_to` changes exactly `previous_status` (to the old
status), `status` (to the target), `updated_at` and `version`
(incremented by one); every other field of the returned order equals the
original's, and — the function being pure on immutable data — the
original value itself is untouched. -/
theorem claim_C10_transition_to_frame (o : Gateway.ProductionOrder) (st : OrderStatus) (now : Int) :
    (o.transition_to st now).previous_status = some o.status ∧
    (o.transition_to st now).status = st ∧
    (o.transition_to st now).updated_at = now ∧
    (o.transition_to st now).version = o.version + 1 ∧
    (o.transition_to st now).order_id = o.order_id ∧
    (o.transition_to st now).brief_id = o.brief_id ∧
    (o.transition_to st now).correlation_id = o.correlation_id ∧
    (o.transition_to st now).stripe_session_id = o.stripe_session_id ∧
    (o.transition_to st now).stripe_payment_intent_id = o.stripe_payment_intent_id ∧
    (o.transition_to st now).stripe_customer_id = o.stripe_customer_id ∧
    (o.transition_to st now).payment_status = o.payment_status ∧
    (o.transition_to st now).payment_tier = o.payment_tier ∧
    (o.transition_to st now).quoted_price = o.quoted_price ∧
    (o.transition_to st now).amount_paid = o.amount_paid ∧
    (o.transition_to st now).currency = o.currency ∧
    (o.transition_to st now).delivery_email = o.delivery_email ∧
    (o.transition_to st now).estimated_delivery = o.estimated_delivery ∧
    (o.transition_to st now).created_at = o.created_at ∧
    (o.transition_to st now).paid_at = o.paid_at ∧
    (o.transition_to st now).queued_at = o.queued_at ∧
    (o.transition_to st now).metadata = o.metadata := by
  simp [ProductionOrder.transition_to]

/-- C6: an invalid webhook signature makes `process_webhook` raise the
typed error with the gateway state entirely unchanged — no webhook event
record, no audit entry, no dispatched handler task, no store mutation. -/
theorem claim_C6_invalid_signature_no_effect (s : GatewayState) (now : Int) :
    processWebhook s SignatureCheck.invalid now = (WebhookResponse.signatureError, s) := rfl

/-- A completed idempotency record refuses acquisition and leaves the
store untouched. -/
theorem tryAcquire_of_completed (st : IdemState) (k : String) (holder : Nat) (now : Int)
    (h : isCompleted st k = true) : tryAcquire st k holder now = (false, st) := by
  unfold isCompleted at h
  unfold tryAcquire
  cases hl : lookupA st.records k with
  | none => rw [hl] at h; simp at h
  | some r =>
    rw [hl] at h
    simp only [decide_eq_true_eq] at h
    by_cases hlk : lockHeld st k
    · simp [hlk]
    · simp [hlk, hl, blocksAcquire, h]

/-- A successful acquisition leaves a fresh `processing` record under the
key. -/
theorem tryAcquire_acquired_lookup (st : IdemState) (k : String) (holder : Nat) (now : Int)
    (h : (tryAcquire st k holder now).1 = true) :
    lookupA (tryAcquire st k holder now).2.records k = some (freshRecord k holder now) := by
  unfold tryAcquire at h ⊢
  by_cases hlk : lockHeld st k = true
  · rw [if_pos hlk] at h
    simp at h
  · rw [if_neg hlk] at h
    rw [if_neg hlk]
    cases hl : lookupA st.records k with
    | none => simp [lookupA_insert]
    | some r =>
      rw [hl] at h
      by_cases hb : blocksAcquire r holder = true
      · simp [hb] at h
      · simp [hb, lookupA_insert]

/-- Marking a present record completed makes `is_completed` true. -/
theorem isCompleted_markCompleted (st : IdemState) (k res : String) (r : IdempotencyRecord)
    (h : lookupA st.records k = some r) :
    isCompleted (markCompleted st k res).2 k = true := by
  unfold markCompleted isCompleted
  rw [h]
  simp [lookupA_insert]

/-- With the idempotency key already completed, the locked checkout
handler short-circuits: `already_processed`, and the only state change is
the burned holder uuid. -/
theorem processCheckoutLocked_completed (s : GatewayState) (session : StripeSession)
    (sid bid corr : String) (now : Int)
    (h : isCompleted s.idem (sessionKey sid) = true) :
    processCheckoutLocked s session sid bid corr now =
      (CheckoutOutcome.alreadyProcessed, { s with nextUuid := s.nextUuid + 1 }) := by
  unfold processCheckoutLocked
  simp only [tryAcquire_of_completed _ _ _ _ h, h, if_true]

/-- C1: once the idempotency key of a Stripe session has been marked
completed by a successful processing, every later invocation of the
checkout-completed handler for that session returns `already_processed`
and performs no business effect — the order store, the audit log and the
idempotency store are all left exactly as they were; and every
invocation that returns `success` does mark the key completed, so order
creation plus event emission happens at most once per session. -/
theorem claim_C1_checkout_idempotent :
    (∀ (s : GatewayState) (session : StripeSession) (sid bid corr : String) (now : Int),
        isCompleted s.idem (sessionKey sid) = true →
        (processCheckoutLocked s session sid bid corr now).1 =
            CheckoutOutcome.alreadyProcessed ∧
        (processCheckoutLocked s session sid bid corr now).2.orders = s.orders ∧
        (processCheckoutLocked s session sid bid corr now).2.audit = s.audit ∧
        (processCheckoutLocked s session sid bid corr now).2.idem = s.idem) ∧
    (∀ (s : GatewayState) (session : StripeSession) (sid bid corr oid : String) (now : Int),
        (processCheckoutLocked s session sid bid corr now).1 =
            CheckoutOutcome.success oid →
        isCompleted (processCheckoutLocked s session sid bid corr now).2.idem
          (sessionKey sid) = true) := by
  constructor
  · intro s session sid bid corr now h
    rw [processCheckoutLocked_completed s session sid bid corr now h]
    exact ⟨rfl, rfl, rfl, rfl⟩
  · intro s session sid bid corr oid now h
    simp only [processCheckoutLocked, emitAudit] at h ⊢
    by_cases hacq :
        (tryAcquire s.idem (sessionKey sid) s.nextUuid now).1 = false
    · rw [if_pos hacq] at h
      by_cases hc : isCompleted (tryAcquire s.idem (sessionKey sid) s.nextUuid now).2
          (sessionKey sid) = true
      · rw [if_pos hc] at h
        simp at h
      · rw [if_neg hc] at h
        simp at h
    · rw [if_neg hacq] at h
      rw [if_neg hacq]
      have hacq2 : (tryAcquire s.idem (sessionKey sid) s.nextUuid now).1 = true := by
        revert hacq
        cases (tryAcquire s.idem (sessionKey sid) s.nextUuid now).1 <;> simp
      cases hb : lookupA s.briefs bid with
      | none => simp [hb] at h
      | some brief =>
        simp only [hb]
        exact isCompleted_markCompleted _ _ _ _
          (tryAcquire_acquired_lookup s.idem (sessionKey sid) s.nextUuid now hacq2)

/-- C2 (amended): every `transition_to` strictly increments `version`;
the one transition the gateway itself performs — `payment_confirmed →
queued` inside `_process_checkout_locked` — moves forward along the
spec's state graph, and the order it stores records that forward step
(`previous_status = payment_confirmed`, `status = queued`, `version`
bumped from 1 to 2).  `transition_to` itself, however, validates
nothing, so a backward transition is representable when requested (see
the counterexample). -/
theorem claim_C2_amended_monotone_version_forward_gateway :
    (∀ (o : Gateway.ProductionOrder) (st : OrderStatus) (now : Int),
        o.version < (o.transition_to st now).version) ∧
    specForwardEdge OrderStatus.payment_confirmed OrderStatus.queued = true ∧
    (∀ (s : GatewayState) (session : StripeSession) (sid bid corr oid : String)
        (now : Int) (o2 : Gateway.ProductionOrder),
        (processCheckoutLocked s session sid bid corr now).1 =
            CheckoutOutcome.success oid →
        lookupA (processCheckoutLocked s session sid bid corr now).2.orders oid =
            some o2 →
        o2.previous_status = some OrderStatus.payment_confirmed ∧
        o2.status = OrderStatus.queued ∧
        specForwardEdge OrderStatus.payment_confirmed o2.status = true ∧
        o2.version = 2) := by
  refine ⟨?_, rfl, ?_⟩
  · intro o st now
    simp [Gateway.ProductionOrder.transition_to]
  · intro s session sid bid corr oid now o2 h hl
    simp only [processCheckoutLocked, emitAudit] at h hl
    by_cases hacq :
        (tryAcquire s.idem (sessionKey sid) s.nextUuid now).1 = false
    · rw [if_pos hacq] at h
      by_cases hc : isCompleted (tryAcquire s.idem (sessionKey sid) s.nextUuid now).2
          (sessionKey sid) = true
      · rw [if_pos hc] at h
        simp at h
      · rw [if_neg hc] at h
        simp at h
    · rw [if_neg hacq] at h hl
      cases hb : lookupA s.briefs bid with
      | none => simp [hb] at h
      | some brief =>
        simp only [hb] at h hl
        simp only [CheckoutOutcome.success.injEq] at h
        subst h
        rw [lookupA_insert] at hl
        cases hl
        refine ⟨?_, rfl, rfl, rfl⟩
        simp [Gateway.ProductionOrder.transition_to, buildOrder]

/-- A terminal order used to exercise `transition_to` outside the spec
graph. -/
def sampleDeliveredOrder : Gateway.ProductionOrder :=
  { order_id := "ORD-X", brief_id := "BRF-X", correlation_id := "corr-X",
    stripe_session_id := none, stripe_payment_intent_id := none,
    stripe_customer_id := none, status := .delivered, payment_status := .captured,
    previous_status := some .completed, payment_tier := .starter,
    quoted_price := 2500, amount_paid := 2500, currency := "usd",
    delivery_email := "buyer@example.com", estimated_delivery := none,
    created_at := 0, updated_at := 0, paid_at := some 0, queued_at := some 0,
    metadata := [], version := 9 }

/-- C2 counterexample: `transition_to` performs no validation, so the
claim "the status never moves backward along the defined state graph"
fails on a concrete input — an order in the terminal state `delivered`
is taken straight back to `pending`, a status from which `delivered` is
not even forward-reachable. -/
theorem claim_C2_counterexample_backward_transition :
    sampleDeliveredOrder.status = OrderStatus.delivered ∧
    (sampleDeliveredOrder.transition_to OrderStatus.pending 1).status =
        OrderStatus.pending ∧
    specForwardEdge OrderStatus.delivered OrderStatus.pending = false ∧
    reachForward OrderStatus.delivered OrderStatus.pending = false ∧
    reachForward OrderStatus.pending OrderStatus.delivered = true := by decide

/-! ### C5: the missing-brief retry scenario -/

/-- The `data.object` of the failing webhook delivery for session
`cs_1`. -/
def c5Session : StripeSession :=
  { id := "cs_1", payment_intent := some "pi_1", customer := some "cus_1",
    amount_total := 500000, metadata_brief_id := some "BRF-1" }

/-- The brief that is cached only after the first delivery already
failed. -/
def c5Brief : CreativeBrief :=
  { brief_id := "BRF-1", session_id := "sess-1", business_name := "TechCorp",
    contact_email := "customer@example.com", payment_tier := .professional,
    quoted_price := 5000, duration_seconds := 60, confidence_score := 92 }

/-- Gateway state before any webhook arrives: all stores empty, the brief
cache in particular. -/
def c5Start : GatewayState :=
  { idem := { records := [], locked := [] }, orders := [], briefs := [],
    audit := [], dlq := [], tasks := [], nextUuid := 0 }

/-- First delivery: the brief is not yet cached, so the attempt fails. -/
def c5FirstAttempt : CheckoutOutcome × GatewayState :=
  processCheckoutLocked c5Start c5Session "cs_1" "BRF-1" "corr-1" 0

/-- The brief is then cached (the later, correctly-ordered retry's
precondition). -/
def c5CachedState : GatewayState :=
  { c5FirstAttempt.2 with briefs := insertA c5FirstAttempt.2.briefs "BRF-1" c5Brief }

/-- Second delivery of the identical webhook, now with the brief
available. -/
def c5Retry : CheckoutOutcome × GatewayState :=
  processCheckoutLocked c5CachedState c5Session "cs_1" "BRF-1" "corr-1" 100

/-- C5: evaluated at the failing input.  The first four conjuncts confirm
what the claim says about the failing attempt itself: the missing brief
aborts it (raised `ValueError`), no order is created, no audit entry is
written, the per-session lock is released and the idempotency key is not
marked completed.  The last two conjuncts exhibit the divergence: the
release path leaves the record as `status = "processing"` with
`lock_holder = None`, which `try_acquire` treats as held by someone
else, so the retry — with the brief cached — returns
`processing_elsewhere` and still creates no order, contradicting both
the claim and the source's own comment "Release idempotency lock on
failure (allow retry)". -/
theorem claim_C5_missing_brief_blocks_retry :
    c5FirstAttempt.1 = CheckoutOutcome.briefNotFound "BRF-1" ∧
    c5FirstAttempt.2.orders = [] ∧
    c5FirstAttempt.2.audit = [] ∧
    lockHeld c5FirstAttempt.2.idem (sessionKey "cs_1") = false ∧
    isCompleted c5FirstAttempt.2.idem (sessionKey "cs_1") = false ∧
    c5Retry.1 = CheckoutOutcome.processingElsewhere ∧
    c5Retry.2.orders = [] := by decide

/-! ### C7: dead-letter threshold -/

/-- Closed form of a webhook event after `k` failed attempts that were
all rescheduled (`k < max_attempts`). -/
def weAfterFailed (we : WebhookEvent) (msg : String) (now : Int) (k : Nat) : WebhookEvent :=
  { we with
    attempt_count := k
    status := WebhookStatus.failed
    last_error := some msg
    next_retry_at := some (now + dlqRetryDelaySeconds * (k : Int)) }

theorem attemptsFailing_retriable (s : GatewayState) (we : WebhookEvent)
    (msg corr : String) (now : Int) (h0 : we.attempt_count = 0) :
    ∀ k, 1 ≤ k → k < we.max_attempts →
      attemptsFailing s we msg corr now k = (weAfterFailed we msg now k, s) := by
  intro k
  induction k with
  | zero => intro h1 _; exact absurd h1 (by omega)
  | succ n ih =>
    intro _ hk
    by_cases hn : 1 ≤ n
    · have hkn : n < we.max_attempts := by omega
      show processWebhookWithDlq (attemptsFailing s we msg corr now n).2
        (attemptsFailing s we msg corr now n).1 (HandlerResult.errorExc msg) corr now =
          (weAfterFailed we msg now (n + 1), s)
      rw [ih hn hkn]
      simp only [processWebhookWithDlq, WebhookEvent.is_retriable, weAfterFailed]
      simp [hk]
    · have hn0 : n = 0 := by omega
      subst hn0
      show processWebhookWithDlq (attemptsFailing s we msg corr now 0).2
        (attemptsFailing s we msg corr now 0).1 (HandlerResult.errorExc msg) corr now =
          (weAfterFailed we msg now 1, s)
      simp only [attemptsFailing, processWebhookWithDlq, WebhookEvent.is_retriable,
        weAfterFailed, h0]
      simp [hk]

/-- C7: a webhook event whose handler fails on every attempt is attempted
exactly `max_attempts` times: every earlier attempt leaves it merely
`failed` and still retriable with the dead-letter store untouched, while
the `max_attempts`-th failure moves it to the dead-letter store with
status frozen at the dead-lettered value (`is_retriable` is false from
then on); and a subsequently delivered identical webhook is tracked as an
independent task under a separate, fresh `event_id`. -/
theorem claim_C7_dead_letter_threshold :
    (∀ (s : GatewayState) (we : WebhookEvent) (msg corr : String) (now : Int),
        we.attempt_count = 0 →
        ∀ k, 1 ≤ k → k < we.max_attempts →
          (attemptsFailing s we msg corr now k).1.status = WebhookStatus.failed ∧
          (attemptsFailing s we msg corr now k).1.attempt_count = k ∧
          (attemptsFailing s we msg corr now k).1.is_retriable = true ∧
          (attemptsFailing s we msg corr now k).2 = s) ∧
    (∀ (s : GatewayState) (we : WebhookEvent) (msg corr : String) (now : Int),
        we.attempt_count = 0 → 1 ≤ we.max_attempts →
        (attemptsFailing s we msg corr now we.max_attempts).1.status =
            WebhookStatus.dlq ∧
        (attemptsFailing s we msg corr now we.max_attempts).1.attempt_count =
            we.max_attempts ∧
        (attemptsFailing s we msg corr now we.max_attempts).1.is_retriable = false ∧
        (attemptsFailing s we msg corr now we.max_attempts).2.dlq =
            s.dlq ++ [(attemptsFailing s we msg corr now we.max_attempts).1]) ∧
    (∀ (s : GatewayState) (e1 i1 c1 p1 e2 i2 c2 p2 : String) (t1 t2 : Int),
        (processWebhook (processWebhook s (SignatureCheck.valid e1 i1 c1 p1) t1).2
            (SignatureCheck.valid e2 i2 c2 p2) t2).2.tasks =
          s.tasks ++ [(newTaskEvent s e1 i1 p1 t1, c1),
            (newTaskEvent (processWebhook s (SignatureCheck.valid e1 i1 c1 p1) t1).2
              e2 i2 p2 t2, c2)] ∧
        (newTaskEvent (processWebhook s (SignatureCheck.valid e1 i1 c1 p1) t1).2
            e2 i2 p2 t2).event_id ≠ (newTaskEvent s e1 i1 p1 t1).event_id) := by
  refine ⟨?_, ?_, ?_⟩
  · intro s we msg corr now h0 k h1 hk
    rw [attemptsFailing_retriable s we msg corr now h0 k h1 hk]
    refine ⟨rfl, rfl, ?_, rfl⟩
    simp [WebhookEvent.is_retriable, weAfterFailed, hk]
  · intro s we msg corr now h0 hm
    by_cases h1 : we.max_attempts = 1
    · rw [h1]
      show (processWebhookWithDlq (attemptsFailing s we msg corr now 0).2
          (attemptsFailing s we msg corr now 0).1 (HandlerResult.errorExc msg) corr now).1.status =
            WebhookStatus.dlq ∧ _
      simp only [attemptsFailing]
      simp [processWebhookWithDlq, WebhookEvent.is_retriable, emitAudit, h0, h1]
    · have h2 : 1 ≤ we.max_attempts - 1 := by omega
      have h3 : we.max_attempts - 1 < we.max_attempts := by omega
      have h4 : we.max_attempts - 1 + 1 = we.max_attempts := by omega
      have step : attemptsFailing s we msg corr now we.max_attempts =
          processWebhookWithDlq s (weAfterFailed we msg now (we.max_attempts - 1))
            (HandlerResult.errorExc msg) corr now := by
        conv =>
          lhs
          rw [← h4]
        show processWebhookWithDlq (attemptsFailing s we msg corr now (we.max_attempts - 1)).2
          (attemptsFailing s we msg corr now (we.max_attempts - 1)).1
          (HandlerResult.errorExc msg) corr now = _
        rw [attemptsFailing_retriable s we msg corr now h0 _ h2 h3]
      rw [step]
      simp only [processWebhookWithDlq, WebhookEvent.is_retriable, weAfterFailed, emitAudit]
      simp [h4]
  · intro s e1 i1 c1 p1 e2 i2 c2 p2 t1 t2
    constructor
    · simp [processWebhook, emitAudit, newTaskEvent]
    · simp only [processWebhook, emitAudit, newTaskEvent]
      omega

/-- Concrete state and event used to witness the dead-letter theorem. -/
def c7State : GatewayState :=
  { idem := { records := [], locked := [] }, orders := [], briefs := [],
    audit := [], dlq := [], tasks := [], nextUuid := 0 }

def c7Event : WebhookEvent :=
  { event_id := 0, event_type := "checkout.session.completed",
    stripe_event_id := "evt_1", payload := "payload", status := .pending,
    attempt_count := 0, max_attempts := 3, last_error := none,
    created_at := 0, processed_at := none, next_retry_at := none }

theorem claim_C7_witness :
    (attemptsFailing c7State c7Event "boom" "corr" 0 2).1.status = WebhookStatus.failed ∧
    (attemptsFailing c7State c7Event "boom" "corr" 0 2).1.attempt_count = 2 ∧
    (attemptsFailing c7State c7Event "boom" "corr" 0 3).1.status = WebhookStatus.dlq ∧
    (attemptsFailing c7State c7Event "boom" "corr" 0 3).1.is_retriable = false ∧
    (attemptsFailing c7State c7Event "boom" "corr" 0 3).2.dlq =
      c7State.dlq ++ [(attemptsFailing c7State c7Event "boom" "corr" 0 3).1] ∧
    (newTaskEvent (processWebhook c7State (SignatureCheck.valid "t" "i" "c" "p") 0).2
        "t" "i" "p" 0).event_id ≠ (newTaskEvent c7State "t" "i" "p" 0).event_id := by
  have h := claim_C7_dead_letter_threshold
  have hmid := h.1 c7State c7Event "boom" "corr" 0 rfl 2 (by decide) (by decide)
  have hfin := h.2.1 c7State c7Event "boom" "corr" 0 rfl (by decide)
  have hids := h.2.2 c7State "t" "i" "c" "p" "t" "i" "c" "p" 0 0
  exact ⟨hmid.1, hmid.2.1, hfin.1, hfin.2.2.1, hfin.2.2.2, hids.2⟩

/-! ### C8: circuit-breaker state machine -/

theorem failuresIter_closed (now : Int) :
    ∀ (k : Nat) (cb : CircuitBreaker), cb.state = CircuitState.closed →
      cb.failures + k < cb.failure_threshold →
      (failuresIter now k cb).state = CircuitState.closed ∧
      (failuresIter now k cb).failures = cb.failures + k ∧
      (failuresIter now k cb).failure_threshold = cb.failure_threshold := by
  intro k
  induction k with
  | zero => intro cb hc _; exact ⟨hc, rfl, rfl⟩
  | succ n ih =>
    intro cb hc hlt
    have hn : cb.failures + n < cb.failure_threshold := by omega
    obtain ⟨h1, h2, h3⟩ := ih cb hc hn
    have hhalf : ¬((failuresIter now n cb).state = CircuitState.half_open) := by
      rw [h1]; simp
    have hcond : ¬((failuresIter now n cb).failures + 1 ≥
        (failuresIter now n cb).failure_threshold) := by
      rw [h2, h3]; omega
    have hstep : failuresIter now (n + 1) cb = recordFailure (failuresIter now n cb) now := rfl
    rw [hstep]
    simp only [recordFailure]
    rw [if_neg hhalf, if_neg hcond]
    refine ⟨h1, ?_, h3⟩
    show (failuresIter now n cb).failures + 1 = cb.failures + (n + 1)
    rw [h2]
    omega

/-- C8: the circuit breaker's state machine.  A fresh breaker is
`closed`; `N = failure_threshold` consecutive recorded failures move it
to `open` (and strictly fewer leave it closed, a success in `closed`
resetting the count — so only consecutive failures accumulate); while
`open` and inside the cooldown every call is rejected immediately;
once the cooldown has elapsed `can_execute` flips it to `half_open` and
allows the trial call; a recorded success in `half_open` returns it to
`closed` with the failure count reset, and a recorded failure in
`half_open` returns it to `open`. -/
theorem claim_C8_circuit_breaker_state_machine :
    (∀ (name : String) (thr : Nat) (timeout : Int),
        (mkCircuitBreaker name thr timeout).state = CircuitState.closed) ∧
    (∀ (name : String) (thr : Nat) (timeout now : Int), 1 ≤ thr →
        (∀ k, k < thr →
          (failuresIter now k (mkCircuitBreaker name thr timeout)).state =
            CircuitState.closed) ∧
        (failuresIter now thr (mkCircuitBreaker name thr timeout)).state =
          CircuitState.opened) ∧
    (∀ (cb : CircuitBreaker) (t now : Int), cb.state = CircuitState.opened →
        cb.last_failure_time = some t → now - t < cb.reset_timeout →
        canExecute cb now = (false, cb)) ∧
    (∀ (cb : CircuitBreaker) (t now : Int), cb.state = CircuitState.opened →
        cb.last_failure_time = some t → now - t ≥ cb.reset_timeout →
        canExecute cb now = (true, { cb with state := CircuitState.half_open })) ∧
    (∀ (cb : CircuitBreaker) (now : Int), cb.state = CircuitState.half_open →
        (canExecute cb now).1 = true ∧
        recordSuccess cb = { cb with state := CircuitState.closed, failures := 0 } ∧
        (recordFailure cb now).state = CircuitState.opened) ∧
    (∀ cb : CircuitBreaker, cb.state = CircuitState.closed →
        (recordSuccess cb).failures = 0) := by
  refine ⟨fun _ _ _ => rfl, ?_, ?_, ?_, ?_, ?_⟩
  · intro name thr timeout now h1
    constructor
    · intro k hk
      exact (failuresIter_closed now k (mkCircuitBreaker name thr timeout) rfl
        (by simp [mkCircuitBreaker]; omega)).1
    · obtain ⟨n, hn⟩ : ∃ n, thr = n + 1 := ⟨thr - 1, by omega⟩
      subst hn
      have hprev := failuresIter_closed now n (mkCircuitBreaker name (n + 1) timeout) rfl
        (by simp [mkCircuitBreaker])
      have hhalf : ¬((failuresIter now n (mkCircuitBreaker name (n + 1) timeout)).state =
          CircuitState.half_open) := by
        rw [hprev.1]; simp
      have hge : (failuresIter now n (mkCircuitBreaker name (n + 1) timeout)).failures + 1 ≥
          (failuresIter now n (mkCircuitBreaker name (n + 1) timeout)).failure_threshold := by
        rw [hprev.2.1, hprev.2.2]
        simp [mkCircuitBreaker]
      show (recordFailure (failuresIter now n (mkCircuitBreaker name (n + 1) timeout)) now).state =
        CircuitState.opened
      simp only [recordFailure]
      rw [if_neg hhalf, if_pos hge]
  · intro cb t now ho ht hlt
    have hneg : ¬(now - t ≥ cb.reset_timeout) := by omega
    simp [canExecute, ho, ht, hneg]
  · intro cb t now ho ht hge
    simp [canExecute, ho, ht, hge]
  · intro cb now hh
    refine ⟨by simp [canExecute, hh], by simp [recordSuccess, hh], ?_⟩
    simp [recordFailure, hh]
  · intro cb hc
    simp [recordSuccess, hc]

/-- Concrete breakers witnessing the state-machine theorem at the
source's default threshold 5 and cooldown 30. -/
def c8Open : CircuitBreaker :=
  { name := "event_bus", failure_threshold := 5, reset_timeout := 30,
    state := CircuitState.opened, failures := 5, last_failure_time := some 0 }

def c8Half : CircuitBreaker :=
  { name := "event_bus", failure_threshold := 5, reset_timeout := 30,
    state := CircuitState.half_open, failures := 5, last_failure_time := some 0 }

theorem claim_C8_witness :
    (mkCircuitBreaker "event_bus" 5 30).state = CircuitState.closed ∧
    (failuresIter 100 4 (mkCircuitBreaker "event_bus" 5 30)).state = CircuitState.closed ∧
    (failuresIter 100 5 (mkCircuitBreaker "event_bus" 5 30)).state = CircuitState.opened ∧
    canExecute c8Open 10 = (false, c8Open) ∧
    canExecute c8Open 31 = (true, { c8Open with state := CircuitState.half_open }) ∧
    (canExecute c8Half 31).1 = true ∧
    recordSuccess c8Half = { c8Half with state := CircuitState.closed, failures := 0 } ∧
    (recordFailure c8Half 40).state = CircuitState.opened := by
  have h := claim_C8_circuit_breaker_state_machine
  have hthr := h.2.1 "event_bus" 5 30 100 (by decide)
  have hhalf := h.2.2.2.2.1 c8Half 31 rfl
  exact ⟨h.1 "event_bus" 5 30,
         hthr.1 4 (by decide),
         hthr.2,
         h.2.2.1 c8Open 0 10 rfl rfl (by decide),
         h.2.2.2.1 c8Open 0 31 rfl rfl (by decide),
         hhalf.1,
         hhalf.2.1,
         (h.2.2.2.2.1 c8Half 40 rfl).2.2⟩

/-! ### C4: expiry beats quota -/

/-- C4: an exchange attempted strictly after `expires_at`, while the
token's status is still `active` and no matter how many downloads remain
under the quota (`download_count` is left fully unconstrained), fails
with reason `expired` (error `"Token expired"`, audit row
`"token_expired"`), leaves the token store untouched, and still appends
exactly one `DownloadAttempt` to the audit log. -/
theorem claim_C4_expired_exchange (s : DeliveryState) (raw ip ua : String)
    (referer : Option String) (now : Int) (t : DeliveryToken)
    (hl : lookupA s.tokens (hashToken raw) = some t)
    (ha : t.status = TokenStatus.active)
    (he : now > t.expires_at) :
    (exchangeTokenForDownload s raw ip ua referer now).1 =
        ExchangeResult.err "Token expired" ∧
    (exchangeTokenForDownload s raw ip ua referer now).2.tokens = s.tokens ∧
    (exchangeTokenForDownload s raw ip ua referer now).2.audit.length =
        s.audit.length + 1 ∧
    ((exchangeTokenForDownload s raw ip ua referer now).2.audit.getLastD
        dummyAttempt).success = false ∧
    ((exchangeTokenForDownload s raw ip ua referer now).2.audit.getLastD
        dummyAttempt).failure_reason = some "token_expired" := by
  have hvalid : t.is_valid now = false := by
    simp [DeliveryToken.is_valid, ha, he]
  have hclass : (t.status = TokenStatus.expired ∨ now > t.expires_at) := Or.inr he
  simp only [exchangeTokenForDownload, hl]
  rw [if_pos hvalid, if_pos hclass]
  refine ⟨rfl, rfl, by simp, ?_, ?_⟩ <;> simp [List.getLastD_concat]

/-- Concrete expired token witnessing the expiry theorem. -/
def c4Token : DeliveryToken :=
  { token_id := 7, token_hash := hashToken "tok4", order_id := "ORD-4",
    correlation_id := "corr-4", status := .active, payment_tier := .professional,
    max_downloads := 10, download_count := 3, allowed_ip_cidrs := [],
    created_at := 0, expires_at := 100, last_used_at := none,
    video_key := "videos/ORD-4.mp4", formats_available := ["mp4_1080p"] }

def c4State : DeliveryState :=
  { tokens := [(hashToken "tok4", c4Token)], audit := [], notifications := [],
    nextUuid := 0 }

theorem claim_C4_witness :
    (exchangeTokenForDownload c4State "tok4" "1.2.3.4" "UA" none 101).1 =
        ExchangeResult.err "Token expired" ∧
    (exchangeTokenForDownload c4State "tok4" "1.2.3.4" "UA" none 101).2.tokens =
        c4State.tokens ∧
    (exchangeTokenForDownload c4State "tok4" "1.2.3.4" "UA" none 101).2.audit.length =
        c4State.audit.length + 1 ∧
    ((exchangeTokenForDownload c4State "tok4" "1.2.3.4" "UA" none 101).2.audit.getLastD
        dummyAttempt).success = false ∧
    ((exchangeTokenForDownload c4State "tok4" "1.2.3.4" "UA" none 101).2.audit.getLastD
        dummyAttempt).failure_reason = some "token_expired" :=
  claim_C4_expired_exchange c4State "tok4" "1.2.3.4" "UA" none 101 c4Token
    (by simp [c4State, lookupA, List.find?]) rfl (by decide)

/-! ### C9: keyed-hash round-trip -/

/-- C9: token lookup round-trips through the keyed hash.  (i) The record
created at delivery time stores exactly the HMAC-SHA-256 of the raw
token keyed by the server-side secret; (ii) looking up by the re-computed
hash of the same raw token — the first thing
`exchange_token_for_download` does — retrieves exactly the record just
created; (iii) an immediate exchange with that raw token succeeds and its
audit row carries the created token's id, showing the full retrieval
path; (iv) the resulting state depends on the raw token only through its
hash (two raw tokens with equal hashes produce identical states and
return values), so no stored field can contain the raw token itself. -/
theorem claim_C9_token_hash_roundtrip :
    (∀ (s : DeliveryState) (order : Delivery.ProductionOrder) (vk : String)
        (fmts : Option (List String)) (raw : String) (now : Int),
        (onProductionCompleted s order vk fmts raw now).1.1.token_hash =
            SHA256.hmacSha256Hex tokenSecret raw ∧
        lookupA (onProductionCompleted s order vk fmts raw now).2.tokens
            (hashToken raw) =
          some (onProductionCompleted s order vk fmts raw now).1.1) ∧
    (∀ (s : DeliveryState) (order : Delivery.ProductionOrder) (vk : String)
        (fmts : Option (List String)) (raw ip ua : String) (now : Int),
        ((exchangeTokenForDownload (onProductionCompleted s order vk fmts raw now).2
            raw ip ua none now).2.audit.getLastD dummyAttempt).token_id =
          some (onProductionCompleted s order vk fmts raw now).1.1.token_id ∧
        ((exchangeTokenForDownload (onProductionCompleted s order vk fmts raw now).2
            raw ip ua none now).2.audit.getLastD dummyAttempt).success = true) ∧
    (∀ (s : DeliveryState) (order : Delivery.ProductionOrder) (vk : String)
        (fmts : Option (List String)) (raw1 raw2 : String) (now : Int),
        hashToken raw1 = hashToken raw2 →
        onProductionCompleted s order vk fmts raw1 now =
          onProductionCompleted s order vk fmts raw2 now) := by
  refine ⟨?_, ?_, ?_⟩
  · intro s order vk fmts raw now
    constructor
    · rfl
    · simp only [onProductionCompleted]
      exact lookupA_insert _ _ _
  · intro s order vk fmts raw ip ua now
    have hl : lookupA (onProductionCompleted s order vk fmts raw now).2.tokens
        (hashToken raw) = some (onProductionCompleted s order vk fmts raw now).1.1 := by
      simp only [onProductionCompleted]
      exact lookupA_insert _ _ _
    have hvalid : (onProductionCompleted s order vk fmts raw now).1.1.is_valid now = true := by
      simp only [onProductionCompleted, DeliveryToken.is_valid]
      by_cases htier : order.payment_tier = Gateway.PaymentTier.enterprise
      · simp [htier, enterpriseMaxDownloads, portalTokenExpiryHours]
      · simp [htier, maxDownloadsPerToken, portalTokenExpiryHours]
    have hnf : ¬((onProductionCompleted s order vk fmts raw now).1.1.is_valid now = false) := by
      rw [hvalid]; simp
    simp only [exchangeTokenForDownload, hl]
    rw [if_neg hnf]
    constructor <;> simp [List.getLastD_concat]
  · intro s order vk fmts raw1 raw2 now h
    simp only [onProductionCompleted, hashToken] at h ⊢
    rw [h]

/-- Concrete order used to witness the round-trip theorem. -/
def c9Order : Delivery.ProductionOrder :=
  { order_id := "ORD-9", brief_id := "BRF-9", correlation_id := "corr-9",
    delivery_email := "buyer@example.com", payment_tier := .starter,
    amount_paid := 2500, estimated_delivery := none,
    business_name := "TechCorp", metadata := [] }

def c9State : DeliveryState :=
  { tokens := [], audit := [], notifications := [], nextUuid := 0 }

theorem claim_C9_witness :
    (onProductionCompleted c9State c9Order "videos/ORD-9.mp4" none "raw-token-9" 0).1.1.token_hash =
        SHA256.hmacSha256Hex tokenSecret "raw-token-9" ∧
    lookupA (onProductionCompleted c9State c9Order "videos/ORD-9.mp4" none "raw-token-9" 0).2.tokens
        (hashToken "raw-token-9") =
      some (onProductionCompleted c9State c9Order "videos/ORD-9.mp4" none "raw-token-9" 0).1.1 ∧
    ((exchangeTokenForDownload
        (onProductionCompleted c9State c9Order "videos/ORD-9.mp4" none "raw-token-9" 0).2
        "raw-token-9" "1.2.3.4" "UA" none 0).2.audit.getLastD dummyAttempt).success = true ∧
    onProductionCompleted c9State c9Order "videos/ORD-9.mp4" none "raw-token-9" 0 =
      onProductionCompleted c9State c9Order "videos/ORD-9.mp4" none "raw-token-9" 0 := by
  have h := claim_C9_token_hash_roundtrip
  have h1 := h.1 c9State c9Order "videos/ORD-9.mp4" none "raw-token-9" 0
  have h2 := h.2.1 c9State c9Order "videos/ORD-9.mp4" none "raw-token-9" "1.2.3.4" "UA" 0
  have h3 := h.2.2 c9State c9Order "videos/ORD-9.mp4" none "raw-token-9" "raw-token-9" 0 rfl
  exact ⟨h1.1, h1.2, h2.2, h3⟩

/-! ### C3: download quota -/

/-- Closed form of the stored token after `j` successful exchanges of a
fresh token (`download_count = 0`, `status = active`). -/
def tokAfter (t0 : DeliveryToken) (now : Int) : Nat → DeliveryToken
  | 0 => t0
  | j + 1 =>
      { t0 with
        download_count := j + 1
        last_used_at := some now
        status := if t0.max_downloads ≤ j + 1 then TokenStatus.exhausted
                  else TokenStatus.active }

theorem tokAfter_expires (t0 : DeliveryToken) (now : Int) (j : Nat) :
    (tokAfter t0 now j).expires_at = t0.expires_at := by cases j <;> rfl

theorem tokAfter_max (t0 : DeliveryToken) (now : Int) (j : Nat) :
    (tokAfter t0 now j).max_downloads = t0.max_downloads := by cases j <;> rfl

theorem tokAfter_video_key (t0 : DeliveryToken) (now : Int) (j : Nat) :
    (tokAfter t0 now j).video_key = t0.video_key := by cases j <;> rfl

theorem tokAfter_order_id (t0 : DeliveryToken) (now : Int) (j : Nat) :
    (tokAfter t0 now j).order_id = t0.order_id := by cases j <;> rfl

theorem tokAfter_count (t0 : DeliveryToken) (now : Int) (j : Nat)
    (hc : t0.download_count = 0) : (tokAfter t0 now j).download_count = j := by
  cases j with
  | zero => exact hc
  | succ i => rfl

theorem tokAfter_status_active (t0 : DeliveryToken) (now : Int) (j : Nat)
    (ha : t0.status = TokenStatus.active) (hj : j < t0.max_downloads) :
    (tokAfter t0 now j).status = TokenStatus.active := by
  cases j with
  | zero => exact ha
  | succ i =>
    have hni : ¬ t0.max_downloads ≤ i + 1 := by omega
    simp [tokAfter, hni]

theorem tokAfter_valid (t0 : DeliveryToken) (now : Int) (j : Nat)
    (ha : t0.status = TokenStatus.active) (hc : t0.download_count = 0)
    (he : ¬ now > t0.expires_at) (hj : j < t0.max_downloads) :
    (tokAfter t0 now j).is_valid now = true := by
  have h1 := tokAfter_status_active t0 now j ha hj
  have h2 := tokAfter_expires t0 now j
  have h3 := tokAfter_count t0 now j hc
  have h4 := tokAfter_max t0 now j
  have hge : ¬((tokAfter t0 now j).download_count ≥ (tokAfter t0 now j).max_downloads) := by
    rw [h3, h4]; omega
  simp only [DeliveryToken.is_valid, h1, h2, h3, h4]
  simp [he, hge, hj]

theorem record_tokAfter (t0 : DeliveryToken) (now : Int) (j : Nat)
    (ha : t0.status = TokenStatus.active) (hc : t0.download_count = 0)
    (hj : j < t0.max_downloads) :
    (tokAfter t0 now j).record_download now = tokAfter t0 now (j + 1) := by
  cases j with
  | zero =>
    by_cases h : t0.max_downloads ≤ 0 + 1
    · simp [DeliveryToken.record_download, tokAfter, hc, ha, h, ge_iff_le]
    · simp [DeliveryToken.record_download, tokAfter, hc, ha, h, ge_iff_le]
  | succ i =>
    have hni : ¬ t0.max_downloads ≤ i + 1 := by omega
    by_cases h : t0.max_downloads ≤ i + 1 + 1
    · simp [DeliveryToken.record_download, tokAfter, hni, h, ge_iff_le]
    · simp [DeliveryToken.record_download, tokAfter, hni, h, ge_iff_le]

/-- Invariant of repeated exchanges of the same raw token: after `j ≤ k`
attempts the stored record is `tokAfter t0 now j` and exactly `j` audit
rows have been appended. -/
theorem exchangeIter_quota (s : DeliveryState) (raw ip ua : String) (now : Int)
    (t0 : DeliveryToken)
    (hl : lookupA s.tokens (hashToken raw) = some t0)
    (ha : t0.status = TokenStatus.active) (hc : t0.download_count = 0)
    (he : ¬ now > t0.expires_at) :
    ∀ j, j ≤ t0.max_downloads →
      lookupA (exchangeIter raw ip ua now j s).tokens (hashToken raw) =
          some (tokAfter t0 now j) ∧
      (exchangeIter raw ip ua now j s).audit.length = s.audit.length + j := by
  intro j
  induction j with
  | zero => intro _; exact ⟨hl, rfl⟩
  | succ n ih =>
    intro hn1
    have hn : n ≤ t0.max_downloads := by omega
    have hnlt : n < t0.max_downloads := by omega
    obtain ⟨ihl, iha⟩ := ih hn
    have hvalid := tokAfter_valid t0 now n ha hc he hnlt
    have hnf : ¬((tokAfter t0 now n).is_valid now = false) := by rw [hvalid]; simp
    have hstep : exchangeIter raw ip ua now (n + 1) s =
        (exchangeTokenForDownload (exchangeIter raw ip ua now n s) raw ip ua none now).2 :=
      rfl
    rw [hstep]
    simp only [exchangeTokenForDownload, ihl]
    rw [if_neg hnf]
    constructor
    · show lookupA (insertA (exchangeIter raw ip ua now n s).tokens (hashToken raw)
        ((tokAfter t0 now n).record_download now)) (hashToken raw) = _
      rw [lookupA_insert, record_tokAfter t0 now n ha hc hnlt]
    · show ((exchangeIter raw ip ua now n s).audit ++ [_]).length = s.audit.length + (n + 1)
      simp [iha]
      omega

/-- C3 (amended): a fresh `DeliveryToken` with `max_downloads = k` that
stays active and unexpired permits exactly `k` successful exchanges —
the `(j+1)`-st call (for `j < k`) returns the short-lived URL with
`remaining_downloads = k - (j+1)` and increments the stored
`download_count` to `j+1` — and the `(k+1)`-st attempt fails with
failure reason `downloads_exhausted` (returned error
`"Token max_downloads_reached"`; the source has no string
`quota_exhausted`), while still appending a `DownloadAttempt` row to the
download audit log and leaving the token store unchanged. -/
theorem claim_C3_amended_download_quota (s : DeliveryState) (raw ip ua : String)
    (now : Int) (t0 : DeliveryToken)
    (hl : lookupA s.tokens (hashToken raw) = some t0)
    (ha : t0.status = TokenStatus.active) (hc : t0.download_count = 0)
    (he : ¬ now > t0.expires_at) :
    (∀ j, j < t0.max_downloads →
        (exchangeTokenForDownload (exchangeIter raw ip ua now j s) raw ip ua none now).1 =
          ExchangeResult.ok
            (generateDownloadUrl t0.video_key (downloadLinkExpiryMinutes * 60) now)
            (downloadLinkExpiryMinutes * 60) (t0.max_downloads - (j + 1))
            (t0.order_id ++ ".mp4") ∧
        lookupA (exchangeIter raw ip ua now (j + 1) s).tokens (hashToken raw) =
            some (tokAfter t0 now (j + 1)) ∧
        (tokAfter t0 now (j + 1)).download_count = j + 1) ∧
    ((exchangeTokenForDownload (exchangeIter raw ip ua now t0.max_downloads s)
        raw ip ua none now).1 = ExchangeResult.err "Token max_downloads_reached" ∧
     (exchangeTokenForDownload (exchangeIter raw ip ua now t0.max_downloads s)
        raw ip ua none now).2.tokens =
          (exchangeIter raw ip ua now t0.max_downloads s).tokens ∧
     (exchangeTokenForDownload (exchangeIter raw ip ua now t0.max_downloads s)
        raw ip ua none now).2.audit.length =
          s.audit.length + t0.max_downloads + 1 ∧
     ((exchangeTokenForDownload (exchangeIter raw ip ua now t0.max_downloads s)
        raw ip ua none now).2.audit.getLastD dummyAttempt).success = false ∧
     ((exchangeTokenForDownload (exchangeIter raw ip ua now t0.max_downloads s)
        raw ip ua none now).2.audit.getLastD dummyAttempt).failure_reason =
          some "downloads_exhausted") := by
  constructor
  · intro j hj
    have hjle : j ≤ t0.max_downloads := by omega
    obtain ⟨ihl, _⟩ := exchangeIter_quota s raw ip ua now t0 hl ha hc he j hjle
    have hvalid := tokAfter_valid t0 now j ha hc he hj
    have hnf : ¬((tokAfter t0 now j).is_valid now = false) := by rw [hvalid]; simp
    refine ⟨?_, (exchangeIter_quota s raw ip ua now t0 hl ha hc he (j + 1) (by omega)).1,
      tokAfter_count t0 now (j + 1) hc⟩
    have hrec := record_tokAfter t0 now j ha hc hj
    have hrem : (tokAfter t0 now (j + 1)).remaining_downloads =
        t0.max_downloads - (j + 1) := by
      unfold DeliveryToken.remaining_downloads
      rw [tokAfter_max, tokAfter_count t0 now (j + 1) hc]
    simp only [exchangeTokenForDownload, ihl]
    rw [if_neg hnf]
    simp [hrec, hrem, tokAfter_video_key, tokAfter_order_id]
  · obtain ⟨ihl, iha⟩ :=
      exchangeIter_quota s raw ip ua now t0 hl ha hc he t0.max_downloads (by omega)
    have hcge : (tokAfter t0 now t0.max_downloads).download_count ≥
        (tokAfter t0 now t0.max_downloads).max_downloads := by
      rw [tokAfter_max, tokAfter_count t0 now t0.max_downloads hc]
    have hsne : (tokAfter t0 now t0.max_downloads).status ≠ TokenStatus.expired := by
      cases hk : t0.max_downloads with
      | zero => rw [tokAfter]; rw [ha]; simp
      | succ i =>
        have : t0.max_downloads ≤ i + 1 := by omega
        simp [tokAfter, this]
    have hsnr : (tokAfter t0 now t0.max_downloads).status ≠ TokenStatus.revoked := by
      cases hk : t0.max_downloads with
      | zero => rw [tokAfter]; rw [ha]; simp
      | succ i =>
        have : t0.max_downloads ≤ i + 1 := by omega
        simp [tokAfter, this]
    have hinvalid : (tokAfter t0 now t0.max_downloads).is_valid now = false := by
      unfold DeliveryToken.is_valid
      by_cases hs : (tokAfter t0 now t0.max_downloads).status ≠ TokenStatus.active
      · rw [if_pos hs]
      · rw [if_neg hs]
        by_cases hexp : now > (tokAfter t0 now t0.max_downloads).expires_at
        · rw [if_pos hexp]
        · rw [if_neg hexp, if_pos hcge]
    have hnotor : ¬((tokAfter t0 now t0.max_downloads).status = TokenStatus.expired ∨
        now > (tokAfter t0 now t0.max_downloads).expires_at) := by
      rw [not_or]
      exact ⟨hsne, by rw [tokAfter_expires]; exact he⟩
    simp only [exchangeTokenForDownload, ihl]
    rw [if_pos hinvalid, if_neg hnotor, if_neg hsnr, if_pos hcge]
    refine ⟨rfl, rfl, ?_, ?_, ?_⟩
    · show ((exchangeIter raw ip ua now t0.max_downloads s).audit ++ [_]).length = _
      simp [iha]
    · simp [List.getLastD_concat]
    · simp [List.getLastD_concat]

/-- Concrete one-download token of the spec's own scenario
(`max_downloads = 1`). -/
def c3Token : DeliveryToken :=
  { token_id := 3, token_hash := hashToken "tok3", order_id := "ORD-3",
    correlation_id := "corr-3", status := .active, payment_tier := .starter,
    max_downloads := 1, download_count := 0, allowed_ip_cidrs := [],
    created_at := 0, expires_at := 1000, last_used_at := none,
    video_key := "videos/ORD-3.mp4", formats_available := ["mp4_1080p"] }

def c3State : DeliveryState :=
  { tokens := [(hashToken "tok3", c3Token)], audit := [], notifications := [],
    nextUuid := 0 }

/-- C3 counterexample: with `max_downloads = 1`, one successful exchange,
then a second attempt from another IP.  The second attempt's audit row
records `failure_reason = "downloads_exhausted"` — not `"quota_exhausted"`
as the claim states — and the returned error is
`"Token max_downloads_reached"`. -/
theorem claim_C3_counterexample_reason_string :
    ((exchangeTokenForDownload (exchangeIter "tok3" "1.2.3.4" "UA" 5 1 c3State)
        "tok3" "5.6.7.8" "UA" none 5).2.audit.getLastD dummyAttempt).failure_reason =
      some "downloads_exhausted" ∧
    ¬(((exchangeTokenForDownload (exchangeIter "tok3" "1.2.3.4" "UA" 5 1 c3State)
        "tok3" "5.6.7.8" "UA" none 5).2.audit.getLastD dummyAttempt).failure_reason =
      some "quota_exhausted") ∧
    ((exchangeTokenForDownload (exchangeIter "tok3" "1.2.3.4" "UA" 5 1 c3State)
        "tok3" "5.6.7.8" "UA" none 5).2.audit.getLastD dummyAttempt).success = false ∧
    (exchangeTokenForDownload (exchangeIter "tok3" "1.2.3.4" "UA" 5 1 c3State)
        "tok3" "5.6.7.8" "UA" none 5).1 =
      ExchangeResult.err "Token max_downloads_reached" ∧
    ((exchangeIter "tok3" "1.2.3.4" "UA" 5 1 c3State).audit.getLastD
        dummyAttempt).success = true := by decide

theorem claim_C3_witness :
    (exchangeTokenForDownload (exchangeIter "tok3" "1.2.3.4" "UA" 5 0 c3State)
        "tok3" "1.2.3.4" "UA" none 5).1 =
      ExchangeResult.ok
        (generateDownloadUrl c3Token.video_key (downloadLinkExpiryMinutes * 60) 5)
        (downloadLinkExpiryMinutes * 60) (c3Token.max_downloads - (0 + 1))
        (c3Token.order_id ++ ".mp4") ∧
    (exchangeTokenForDownload (exchangeIter "tok3" "1.2.3.4" "UA" 5 c3Token.max_downloads
        c3State) "tok3" "1.2.3.4" "UA" none 5).1 =
      ExchangeResult.err "Token max_downloads_reached" ∧
    ((exchangeTokenForDownload (exchangeIter "tok3" "1.2.3.4" "UA" 5 c3Token.max_downloads
        c3State) "tok3" "1.2.3.4" "UA" none 5).2.audit.getLastD dummyAttempt).failure_reason =
      some "downloads_exhausted" := by
  have h := claim_C3_amended_download_quota c3State "tok3" "1.2.3.4" "UA" 5 c3Token
    (by simp [c3State, lookupA, List.find?]) rfl rfl (by decide)
  exact ⟨(h.1 0 (by decide)).1, h.2.1, h.2.2.2.2.2⟩

/-! ### Witness material for C1 and C2 -/

def c1Session : StripeSession :=
  { id := "cs_1", payment_intent := some "pi_1", customer := some "cus_1",
    amount_total := 500000, metadata_brief_id := some "BRF-1" }

def c1Brief : CreativeBrief :=
  { brief_id := "BRF-1", session_id := "sess-1", business_name := "TechCorp",
    contact_email := "customer@example.com", payment_tier := .professional,
    quoted_price := 5000, duration_seconds := 60, confidence_score := 92 }

/-- State whose idempotency key for `cs_1` is already completed. -/
def c1DoneRecord : IdempotencyRecord :=
  { key := sessionKey "cs_1", status := .completed, result := some "ORD-X",
    created_at := 0, expires_at := 604800, lock_holder := some 0 }

def c1Done : GatewayState :=
  { idem := { records := [(sessionKey "cs_1", c1DoneRecord)], locked := [] },
    orders := [], briefs := [], audit := [], dlq := [], tasks := [], nextUuid := 1 }

/-- Fresh state with the brief cached, on which processing succeeds. -/
def c1Ready : GatewayState :=
  { idem := { records := [], locked := [] }, orders := [],
    briefs := [("BRF-1", c1Brief)], audit := [], dlq := [], tasks := [],
    nextUuid := 0 }

theorem claim_C1_witness :
    (processCheckoutLocked c1Done c1Session "cs_1" "BRF-1" "corr-1" 0).1 =
        CheckoutOutcome.alreadyProcessed ∧
    (processCheckoutLocked c1Done c1Session "cs_1" "BRF-1" "corr-1" 0).2.orders =
        c1Done.orders ∧
    (processCheckoutLocked c1Done c1Session "cs_1" "BRF-1" "corr-1" 0).2.audit =
        c1Done.audit ∧
    (processCheckoutLocked c1Done c1Session "cs_1" "BRF-1" "corr-1" 0).2.idem =
        c1Done.idem ∧
    isCompleted (processCheckoutLocked c1Ready c1Session "cs_1" "BRF-1" "corr-1" 0).2.idem
        (sessionKey "cs_1") = true := by
  have h := claim_C1_checkout_idempotent
  have h1 := h.1 c1Done c1Session "cs_1" "BRF-1" "corr-1" 0 (by decide)
  have h2 := h.2 c1Ready c1Session "cs_1" "BRF-1" "corr-1"
    (generateOrderId "BRF-1") 0 (by decide)
  exact ⟨h1.1, h1.2.1, h1.2.2.1, h1.2.2.2, h2⟩

def c2Brief : CreativeBrief :=
  { brief_id := "BRF-2", session_id := "sess-2", business_name := "OtherCorp",
    contact_email := "other@example.com", payment_tier := .starter,
    quoted_price := 2500, duration_seconds := 30, confidence_score := 88 }

def c2Session : StripeSession :=
  { id := "cs_2", payment_intent := some "pi_2", customer := some "cus_2",
    amount_total := 250000, metadata_brief_id := some "BRF-2" }

def c2Ready : GatewayState :=
  { idem := { records := [], locked := [] }, orders := [],
    briefs := [("BRF-2", c2Brief)], audit := [], dlq := [], tasks := [],
    nextUuid := 0 }

/-- The queued order the gateway stores in the witnessed run. -/
def c2StoredOrder : Gateway.ProductionOrder :=
  { (buildOrder c2Brief c2Session "cs_2" "BRF-2" "corr-2" 0).transition_to
      OrderStatus.queued 0 with queued_at := some 0 }

theorem claim_C2_witness :
    sampleDeliveredOrder.version <
        (sampleDeliveredOrder.transition_to OrderStatus.queued 0).version ∧
    specForwardEdge OrderStatus.payment_confirmed OrderStatus.queued = true ∧
    c2StoredOrder.previous_status = some OrderStatus.payment_confirmed ∧
    c2StoredOrder.status = OrderStatus.queued ∧
    specForwardEdge OrderStatus.payment_confirmed c2StoredOrder.status = true ∧
    c2StoredOrder.version = 2 := by
  have h := claim_C2_amended_monotone_version_forward_gateway
  have h3 := h.2.2 c2Ready c2Session "cs_2" "BRF-2" "corr-2"
    (generateOrderId "BRF-2") 0 c2StoredOrder (by decide) (by decide)
  exact ⟨h.1 sampleDeliveredOrder OrderStatus.queued 0, h.2.1,
    h3.1, h3.2.1, h3.2.2.1, h3.2.2.2⟩

end WebsiteAssistant
